import Mathlib

/-!
Shallow embedding of the lamar-backend intake/reconciliation core.

Source files embedded:
- `src/patients/models.py` — the `Provider`, `Patient`, `Order` rows and the
  store (Django ORM tables with unique constraints on `npi` / `mrn`).
- `src/patients/schemas.py` — the `PatientIn` request schema (plain strings,
  no digit constraints; the model-level `RegexValidator`s are *not* run by
  `objects.create`, which the endpoint uses).
- `src/patients/api.py` — the `create_patient` endpoint (the reconciliation
  entry point) and the `extract_records_text` endpoint.

The Django ORM is modelled as explicit state passing over a `Store` record
holding the three tables as lists plus fresh-id counters.  `Order.created_at`
(an auto-now timestamp) is not modelled; no verified property depends on it.
-/

namespace Lamar

/-- Row of the `Provider` table (`models.py`): `{ id, name, npi }`.
`npi` carries a unique constraint in the schema. -/
structure Provider where
  id : Nat
  name : String
  npi : String
deriving Repr, DecidableEq

/-- Row of the `Patient` table (`models.py`).  `mrn` carries a unique
constraint; `provider_id` is the foreign key to `Provider`. -/
structure Patient where
  id : Nat
  first_name : String
  last_name : String
  mrn : String
  primary_diagnosis : String
  additional_diagnoses : List String
  medication_history : List String
  records_text : String
  provider_id : Nat
deriving Repr, DecidableEq

/-- Row of the `Order` table (`models.py`): `{ id, patient_id,
medication_name }`; `created_at` is omitted (see file header). -/
structure Order where
  id : Nat
  patient_id : Nat
  medication_name : String
deriving Repr, DecidableEq

/-- The identity store: the three tables, plus the auto-increment counters
Django keeps per table. -/
structure Store where
  providers : List Provider
  patients : List Patient
  orders : List Order
  next_provider_id : Nat
  next_patient_id : Nat
  next_order_id : Nat
deriving Repr, DecidableEq

/-- The empty database. -/
def emptyStore : Store :=
  { providers := [], patients := [], orders := [],
    next_provider_id := 1, next_patient_id := 1, next_order_id := 1 }

/-- The `PatientIn` request schema (`schemas.py`).  All identifier fields are
plain strings: the schema declares no digit-count constraint on `mrn` or
`provider_npi`. -/
structure PatientIn where
  first_name : String
  last_name : String
  mrn : String
  primary_diagnosis : String
  referring_provider : String
  provider_npi : String
  medication_name : String
  additional_diagnoses : List String
  medication_history : List String
  records_text : String
  confirm_patient_name_mismatch : Bool
  confirm_provider_name_mismatch : Bool
  confirm_duplicate_order : Bool
deriving Repr, DecidableEq

/-- The `issues.provider` payload of a 422 response (`api.py`). -/
structure ProviderIssue where
  existing_name : String
  submitted_name : String
  npi : String
deriving Repr, DecidableEq

/-- The `issues.patient` payload of a 422 response (`api.py`). -/
structure PatientIssue where
  existing_name : String
  submitted_name : String
  mrn : String
deriving Repr, DecidableEq

/-- The `issues.order` payload of a 422 response (`api.py`). -/
structure OrderIssue where
  medication_name : String
  existing_order_id : Nat
deriving Repr, DecidableEq

/-- The `issues` object of a 422 response. -/
structure Issues where
  provider : Option ProviderIssue
  patient : Option PatientIssue
  order : Option OrderIssue
deriving Repr, DecidableEq

/-- The two response shapes of the reconciliation entry point:
the `JsonResponse(..., status=422)` with `requires_confirmation: true`,
and the 200 `PatientOrderOut(message, patient_id, order_id)`. -/
inductive Response where
  | confirmation422 (issues : Issues)
  | success (message : String) (patient_id : Nat) (order_id : Nat)
deriving Repr, DecidableEq

/-- HTTP status of a reconciliation response. -/
def Response.status : Response → Nat
  | .confirmation422 _ => 422
  | .success _ _ _ => 200

/-- The `requires_confirmation` field of the response body. -/
def Response.requiresConfirmation : Response → Bool
  | .confirmation422 _ => true
  | .success _ _ _ => false

/-- Python's `str.lower()` (and Django's `__iexact` normalisation), modelled
character-by-character with `Char.toLower` (ASCII case folding, which is
what every identifier and name in this codebase uses).  Defined over the
character list so that it reduces by kernel computation. -/
def lower (s : String) : String :=
  ⟨s.data.map Char.toLower⟩

/-- `Provider.objects.filter(npi=payload.provider_npi).first()` (`api.py`). -/
def existingProviderOf (σ : Store) (r : PatientIn) : Option Provider :=
  σ.providers.find? (fun p => p.npi == r.provider_npi)

/-- The `provider_name_mismatch` flag computed by `create_patient`:
the existing provider's name differs case-insensitively. -/
def provider_name_mismatchOf (σ : Store) (r : PatientIn) : Bool :=
  match existingProviderOf σ r with
  | some ep => lower ep.name != lower r.referring_provider
  | none => false

/-- The `confirmation_issues['provider']` entry built by `create_patient`:
present when the name mismatches and `confirm_provider_name_mismatch` is
not set. -/
def providerIssueOf (σ : Store) (r : PatientIn) : Option ProviderIssue :=
  match existingProviderOf σ r with
  | some ep =>
      if lower ep.name != lower r.referring_provider
          && !r.confirm_provider_name_mismatch then
        some { existing_name := ep.name, submitted_name := r.referring_provider,
               npi := r.provider_npi }
      else none
  | none => none

/-- `Patient.objects.filter(mrn=payload.mrn).first()` (`api.py`). -/
def existingPatientOf (σ : Store) (r : PatientIn) : Option Patient :=
  σ.patients.find? (fun p => p.mrn == r.mrn)

/-- The `patient_name_mismatch` flag computed by `create_patient`. -/
def patient_name_mismatchOf (σ : Store) (r : PatientIn) : Bool :=
  match existingPatientOf σ r with
  | some ep =>
      lower ep.first_name != lower r.first_name
        || lower ep.last_name != lower r.last_name
  | none => false

/-- The `confirmation_issues['patient']` entry built by `create_patient`. -/
def patientIssueOf (σ : Store) (r : PatientIn) : Option PatientIssue :=
  match existingPatientOf σ r with
  | some ep =>
      if (lower ep.first_name != lower r.first_name
            || lower ep.last_name != lower r.last_name)
          && !r.confirm_patient_name_mismatch then
        some { existing_name := ep.first_name ++ " " ++ ep.last_name,
               submitted_name := r.first_name ++ " " ++ r.last_name,
               mrn := r.mrn }
      else none
  | none => none

/-- `Order.objects.filter(patient=patient, medication_name__iexact=...)`:
the orders of a given patient whose medication name matches
case-insensitively. -/
def matchingOrders (σ : Store) (patient_id : Nat) (medication_name : String) :
    List Order :=
  σ.orders.filter
    (fun o => o.patient_id == patient_id
      && lower o.medication_name == lower medication_name)

/-- The "Handle provider" block of `create_patient`: reuse the existing
provider, writing back the submitted name when the mismatch was confirmed
(`provider.save()` is modelled as replacing the row with that id), else
create a new `Provider` row. -/
def resolveProvider (σ : Store) (existing_provider : Option Provider)
    (mismatch : Bool) (submitted_name : String) (npi : String) :
    Store × Provider :=
  match existing_provider with
  | some ep =>
      if mismatch then
        let ep' : Provider := { ep with name := submitted_name }
        let ps := σ.providers.map (fun p => if p.id == ep.id then ep' else p)
        ({ σ with providers := ps }, ep')
      else (σ, ep)
  | none =>
      let np : Provider :=
        { id := σ.next_provider_id, name := submitted_name, npi := npi }
      let σ' : Store :=
        { σ with providers := σ.providers ++ [np],
                 next_provider_id := σ.next_provider_id + 1 }
      (σ', np)

/-- The "Handle patient" block of `create_patient`: reuse the existing
patient unchanged, else create a new `Patient` row from the payload. -/
def resolvePatient (σ : Store) (existing_patient : Option Patient)
    (provider : Provider) (r : PatientIn) : Store × Patient :=
  match existing_patient with
  | some ep => (σ, ep)
  | none =>
      let np : Patient :=
        { id := σ.next_patient_id, first_name := r.first_name,
          last_name := r.last_name, mrn := r.mrn,
          primary_diagnosis := r.primary_diagnosis,
          additional_diagnoses := r.additional_diagnoses,
          medication_history := r.medication_history,
          records_text := r.records_text, provider_id := provider.id }
      let σ' : Store :=
        { σ with patients := σ.patients ++ [np],
                 next_patient_id := σ.next_patient_id + 1 }
      (σ', np)

/-- `Order.objects.create(patient=patient, medication_name=...)`. -/
def addOrder (σ : Store) (patient_id : Nat) (medication_name : String) :
    Store × Order :=
  let o : Order :=
    { id := σ.next_order_id, patient_id := patient_id,
      medication_name := medication_name }
  let σ' : Store :=
    { σ with orders := σ.orders ++ [o], next_order_id := σ.next_order_id + 1 }
  (σ', o)

/-- The success-message construction at the end of `create_patient`
(the `warnings` list joined after "Order created successfully."). -/
def successMessage (provider_name_mismatch patient_name_mismatch
    had_existing_order : Bool) (medication_name : String) : String :=
  let warnings :=
    (if provider_name_mismatch
      then ["⚠️ Provider name updated from existing entry."] else []) ++
    (if patient_name_mismatch
      then ["⚠️ Order created for existing patient."] else []) ++
    (if had_existing_order
      then ["⚠️ Duplicate order created for '" ++ medication_name ++ "'."] else [])
  if warnings.isEmpty then "Patient and order created successfully."
  else "Order created successfully. " ++ String.intercalate " " warnings

/-- The second half of `create_patient` (`api.py`, after the identity
confirmation gate): resolve provider and patient, then run the duplicate
order check on the resolved patient, and either return the order 422 or
create the order and return success. -/
def commitPhase (σ : Store) (r : PatientIn) : Store × Response :=
  let res₁ := resolveProvider σ (existingProviderOf σ r)
    (provider_name_mismatchOf σ r) r.referring_provider r.provider_npi
  let res₂ := resolvePatient res₁.1 (existingPatientOf σ r) res₁.2 r
  match (matchingOrders res₂.1 res₂.2.id r.medication_name).head? with
  | some eo =>
      if !r.confirm_duplicate_order then
        (res₂.1, .confirmation422
          { provider := none, patient := none,
            order := some { medication_name := r.medication_name,
                            existing_order_id := eo.id } })
      else
        let res₃ := addOrder res₂.1 res₂.2.id r.medication_name
        (res₃.1, .success
          (successMessage (provider_name_mismatchOf σ r)
            (patient_name_mismatchOf σ r) true r.medication_name)
          res₂.2.id res₃.2.id)
  | none =>
      let res₃ := addOrder res₂.1 res₂.2.id r.medication_name
      (res₃.1, .success
        (successMessage (provider_name_mismatchOf σ r)
          (patient_name_mismatchOf σ r) false r.medication_name)
        res₂.2.id res₃.2.id)

/-- The reconciliation entry point `create_patient` (`api.py`):
collect the provider and patient confirmation issues, return them together
as a 422 if any are present (without touching the store), otherwise run the
commit phase.  Note the endpoint performs no digit validation of `mrn` or
`provider_npi`: `PatientIn` declares none and the model validators are not
run by `objects.create`. -/
def create_patient (σ : Store) (r : PatientIn) : Store × Response :=
  let providerIssue := providerIssueOf σ r
  let patientIssue := patientIssueOf σ r
  if providerIssue.isSome || patientIssue.isSome then
    (σ, .confirmation422
      { provider := providerIssue, patient := patientIssue, order := none })
  else
    commitPhase σ r

/-- Spec §4.2 condition 1, as detected by the code: an unconfirmed provider
identity conflict (existing provider under this NPI whose name differs
case-insensitively, with the confirm flag unset). -/
def providerConflictUnconfirmed (σ : Store) (r : PatientIn) : Bool :=
  match existingProviderOf σ r with
  | some ep =>
      (lower ep.name != lower r.referring_provider)
        && !r.confirm_provider_name_mismatch
  | none => false

/-- Spec §4.2 condition 2, as detected by the code: an unconfirmed patient
identity conflict. -/
def patientConflictUnconfirmed (σ : Store) (r : PatientIn) : Bool :=
  match existingPatientOf σ r with
  | some ep =>
      (lower ep.first_name != lower r.first_name
        || lower ep.last_name != lower r.last_name)
        && !r.confirm_patient_name_mismatch
  | none => false

/-- Well-formedness of the store, as guaranteed by the schema of
`models.py`: distinct rows have distinct primary keys, the unique
constraints on `npi` and `mrn` hold, auto-increment counters are ahead of
every existing id, and every order references an existing patient
(`ForeignKey` integrity). -/
def Store.WF (σ : Store) : Prop :=
  σ.providers.Pairwise (fun a b => a.id ≠ b.id) ∧
  σ.providers.Pairwise (fun a b => a.npi ≠ b.npi) ∧
  σ.patients.Pairwise (fun a b => a.id ≠ b.id) ∧
  σ.patients.Pairwise (fun a b => a.mrn ≠ b.mrn) ∧
  (∀ p ∈ σ.providers, p.id < σ.next_provider_id) ∧
  (∀ p ∈ σ.patients, p.id < σ.next_patient_id) ∧
  (∀ o ∈ σ.orders, o.id < σ.next_order_id) ∧
  (∀ o ∈ σ.orders, ∃ p ∈ σ.patients, o.patient_id = p.id)

instance (σ : Store) : Decidable σ.WF := by
  unfold Store.WF
  infer_instance

/-- A database error surfaced by the store during a write.  `api.py` imports
`IntegrityError` but `create_patient` contains no handler for it. -/
inductive DBError where
  | integrityError (msg : String)
deriving Repr, DecidableEq

/-- `Provider.objects.create(...)` against a live store: raises
`IntegrityError` when the unique constraint on `npi` is violated. -/
def insertProvider (σ : Store) (submitted_name : String) (npi : String) :
    Except DBError (Store × Provider) :=
  if σ.providers.any (fun p => p.npi == npi) then
    .error (.integrityError "UNIQUE constraint failed: patients_provider.npi")
  else
    .ok (resolveProvider σ none false submitted_name npi)

/-- `Patient.objects.create(...)` against a live store: raises
`IntegrityError` when the unique constraint on `mrn` is violated. -/
def insertPatient (σ : Store) (provider : Provider) (r : PatientIn) :
    Except DBError (Store × Patient) :=
  if σ.patients.any (fun p => p.mrn == r.mrn) then
    .error (.integrityError "UNIQUE constraint failed: patients_patient.mrn")
  else
    .ok (resolvePatient σ none provider r)

/-- `create_patient` under the commit race of spec §5: the detection reads
see the snapshot `σr`, while the writes hit the live store `σ`, which a
concurrent request may have changed after the reads.  This is the same code
as `create_patient` with the two stores distinguished and the store's
`IntegrityError` made explicit; since the source has no `try`/`except`
around the writes, the error propagates out of the endpoint (`Except.error`)
instead of being mapped to any HTTP response. -/
def create_patientRaced (σr : Store) (σ : Store) (r : PatientIn) :
    Except DBError (Store × Response) :=
  let providerIssue := providerIssueOf σr r
  let patientIssue := patientIssueOf σr r
  if providerIssue.isSome || patientIssue.isSome then
    .ok (σ, .confirmation422
      { provider := providerIssue, patient := patientIssue, order := none })
  else do
    let res₁ ←
      match existingProviderOf σr r with
      | some ep =>
          pure (resolveProvider σ (some ep) (provider_name_mismatchOf σr r)
            r.referring_provider r.provider_npi)
      | none => insertProvider σ r.referring_provider r.provider_npi
    let res₂ ←
      match existingPatientOf σr r with
      | some ep => pure (resolvePatient res₁.1 (some ep) res₁.2 r)
      | none => insertPatient res₁.1 res₁.2 r
    match (matchingOrders res₂.1 res₂.2.id r.medication_name).head? with
    | some eo =>
        if !r.confirm_duplicate_order then
          pure (res₂.1, .confirmation422
            { provider := none, patient := none,
              order := some { medication_name := r.medication_name,
                              existing_order_id := eo.id } })
        else
          let res₃ := addOrder res₂.1 res₂.2.id r.medication_name
          pure (res₃.1, .success
            (successMessage (provider_name_mismatchOf σr r)
              (patient_name_mismatchOf σr r) true r.medication_name)
            res₂.2.id res₃.2.id)
    | none =>
        let res₃ := addOrder res₂.1 res₂.2.id r.medication_name
        pure (res₃.1, .success
          (successMessage (provider_name_mismatchOf σr r)
            (patient_name_mismatchOf σr r) false r.medication_name)
          res₂.2.id res₃.2.id)

/-! ### Document text extraction (`extract_records_text`, `api.py`)

A PDF upload is modelled by what `pypdf` does with it: either the
`PdfReader` constructor raises (the whole document cannot be parsed), or it
yields a list of pages, each of whose `extract_text()` calls either raises
or returns an optional string (`None` or text). -/

/-- Outcome of `page.extract_text()` for one page. -/
inductive PageResult where
  | failure
  | extracted (t : Option String)
deriving Repr, DecidableEq

/-- Whether the page's extraction raised. -/
def PageResult.isFailure : PageResult → Bool
  | .failure => true
  | .extracted _ => false

/-- A parsed-or-unparsable uploaded document, as seen through `pypdf`. -/
inductive PdfDocModel where
  | unreadable (msg : String)
  | readable (pages : List PageResult)
deriving Repr, DecidableEq

/-- Response shapes of the `/records/extract` endpoint:
200 `{ extracted_text }` or the 400 `JsonResponse {error}`. -/
inductive ExtractResponse where
  | ok (extracted_text : String)
  | error (msg : String)
deriving Repr, DecidableEq

/-- HTTP status of an extraction response. -/
def ExtractResponse.status : ExtractResponse → Nat
  | .ok _ => 200
  | .error _ => 400

/-- The text a non-failing page contributes:
`page.extract_text() or ""` maps `None` to the empty string. -/
def pageText : PageResult → Option String
  | .failure => none
  | .extracted t => some (t.getD "")

/-- The `extract_records_text` endpoint (`api.py`): the outer
`try`/`except` turns any reader failure into a 400 error response; the
inner `try`/`except`/`continue` skips any page whose extraction raises;
the surviving page texts are stripped and joined with blank lines. -/
def extract_records_text (doc : PdfDocModel) : ExtractResponse :=
  match doc with
  | .unreadable msg => .error ("Failed to extract text: " ++ msg)
  | .readable pages =>
      let texts := pages.filterMap pageText
      .ok (String.intercalate "\n\n" (texts.map (fun t => t.trim)))

/-- The store after the "Handle provider" block of the commit phase. -/
def postProviderStore (σ : Store) (r : PatientIn) : Store :=
  (resolveProvider σ (existingProviderOf σ r) (provider_name_mismatchOf σ r)
    r.referring_provider r.provider_npi).1

/-- The provider resolved by the "Handle provider" block. -/
def resolvedProvider (σ : Store) (r : PatientIn) : Provider :=
  (resolveProvider σ (existingProviderOf σ r) (provider_name_mismatchOf σ r)
    r.referring_provider r.provider_npi).2

/-- The patient row created by the commit phase for a previously unseen
MRN: submitted fields, fresh id, resolved provider reference. -/
def newPatient (σ : Store) (r : PatientIn) : Patient :=
  ⟨σ.next_patient_id, r.first_name, r.last_name, r.mrn,
   r.primary_diagnosis, r.additional_diagnoses, r.medication_history,
   r.records_text, (resolvedProvider σ r).id⟩

/-! ### Concrete fixtures (the spec's running example, tests.py data) -/

/-- A store holding provider Dr. Smith and patient John Doe (MRN 123456)
with no orders; the stored patient has empty diagnosis lists and records
text, unlike the running request. -/
def storeJohn : Store :=
  { providers := [⟨1, "Dr. Smith", "1234567890"⟩],
    patients := [⟨1, "John", "Doe", "123456", "G70.00", [], [], "", 1⟩],
    orders := [],
    next_provider_id := 2, next_patient_id := 2, next_order_id := 1 }

/-- `storeJohn` with one existing IVIG order for John Doe. -/
def storeJohnIvig : Store :=
  { storeJohn with orders := [⟨1, 1, "IVIG"⟩], next_order_id := 2 }

/-- The running example intake request of the spec and `tests.py`:
John Doe, MRN 123456, referred by Dr. Smith (NPI 1234567890), IVIG. -/
def reqBase : PatientIn :=
  { first_name := "John", last_name := "Doe", mrn := "123456",
    primary_diagnosis := "G70.00", referring_provider := "Dr. Smith",
    provider_npi := "1234567890", medication_name := "IVIG",
    additional_diagnoses := ["I10"], medication_history := ["Aspirin"],
    records_text := "Patient records here",
    confirm_patient_name_mismatch := false,
    confirm_provider_name_mismatch := false,
    confirm_duplicate_order := false }

/-- A store holding one provider named "Dr. Original" under NPI
1234567890 (the provider-mismatch fixture of `tests.py`). -/
def storeProvOriginal : Store :=
  { emptyStore with
      providers := [{ id := 1, name := "Dr. Original", npi := "1234567890" }],
      next_provider_id := 2 }

/-- A store holding provider Dr. Original and a patient Jane Doe under
MRN 123456 (the double-mismatch fixture). -/
def storeBothMismatch : Store :=
  { emptyStore with
      providers := [{ id := 1, name := "Dr. Original", npi := "1234567890" }],
      patients := [{ id := 1, first_name := "Jane", last_name := "Roe",
                     mrn := "123456", primary_diagnosis := "G70.00",
                     additional_diagnoses := [], medication_history := [],
                     records_text := "", provider_id := 1 }],
      next_provider_id := 2, next_patient_id := 2 }

/-- The running request with both identity confirm flags set (the
resubmission of the double-mismatch case). -/
def reqBothConfirm : PatientIn :=
  { reqBase with confirm_provider_name_mismatch := true,
                 confirm_patient_name_mismatch := true }

/-- The double-mismatch fixture where the existing patient additionally has
an IVIG order already. -/
def storeBothMismatchIvig : Store :=
  { storeBothMismatch with orders := [⟨1, 1, "IVIG"⟩], next_order_id := 2 }

/-- The running request with a 5-digit MRN. -/
def reqShortMrn : PatientIn := { reqBase with mrn := "12345" }

/-- The running request with a 9-digit NPI. -/
def reqShortNpi : PatientIn := { reqBase with provider_npi := "123456789" }

/-- The store the winning concurrent submission has already committed. -/
def storeWinner : Store := (create_patient emptyStore reqBase).1

/-! ### Basic lemmas about the embedding -/

lemma providerIssueOf_isSome (σ : Store) (r : PatientIn) :
    (providerIssueOf σ r).isSome = providerConflictUnconfirmed σ r := by
  unfold providerIssueOf providerConflictUnconfirmed
  cases existingProviderOf σ r with
  | none => rfl
  | some ep =>
      cases hb : (lower ep.name != lower r.referring_provider
          && !r.confirm_provider_name_mismatch) <;> simp [hb]

lemma patientIssueOf_isSome (σ : Store) (r : PatientIn) :
    (patientIssueOf σ r).isSome = patientConflictUnconfirmed σ r := by
  unfold patientIssueOf patientConflictUnconfirmed
  cases existingPatientOf σ r with
  | none => rfl
  | some ep =>
      cases hb : ((lower ep.first_name != lower r.first_name
            || lower ep.last_name != lower r.last_name)
          && !r.confirm_patient_name_mismatch) <;> simp [hb]

/-- When some identity issue is present, `create_patient` returns the 422
immediately with the store untouched. -/
lemma create_patient_of_issue (σ : Store) (r : PatientIn)
    (h : ((providerIssueOf σ r).isSome || (patientIssueOf σ r).isSome) = true) :
    create_patient σ r =
      (σ, .confirmation422
        { provider := providerIssueOf σ r, patient := patientIssueOf σ r,
          order := none }) := by
  unfold create_patient
  simp only [h, if_true]

/-- When no identity issue is present, `create_patient` runs the commit
phase. -/
lemma create_patient_of_no_issue (σ : Store) (r : PatientIn)
    (hp : providerConflictUnconfirmed σ r = false)
    (hq : patientConflictUnconfirmed σ r = false) :
    create_patient σ r = commitPhase σ r := by
  unfold create_patient
  simp only [providerIssueOf_isSome, patientIssueOf_isSome, hp, hq,
    Bool.or_self, if_false, Bool.false_eq_true]

/-- Provider resolution touches only the provider table and its counter. -/
lemma resolveProvider_frame (σ : Store) (ep? : Option Provider) (m : Bool)
    (n i : String) :
    (resolveProvider σ ep? m n i).1.patients = σ.patients ∧
    (resolveProvider σ ep? m n i).1.orders = σ.orders ∧
    (resolveProvider σ ep? m n i).1.next_patient_id = σ.next_patient_id ∧
    (resolveProvider σ ep? m n i).1.next_order_id = σ.next_order_id := by
  cases ep? with
  | none => simp [resolveProvider]
  | some ep => cases m <;> simp [resolveProvider]

/-- Resolving an existing patient is a pure read. -/
lemma resolvePatient_some (σ : Store) (pt : Patient) (pr : Provider)
    (r : PatientIn) : resolvePatient σ (some pt) pr r = (σ, pt) := rfl

/-- An unconfirmed provider conflict pins down the provider found by NPI and
the mismatch condition on it. -/
lemma providerConflict_elim (σ : Store) (r : PatientIn)
    (hp : providerConflictUnconfirmed σ r = true) :
    ∃ ep, existingProviderOf σ r = some ep ∧
      (lower ep.name != lower r.referring_provider
        && !r.confirm_provider_name_mismatch) = true := by
  unfold providerConflictUnconfirmed at hp
  cases hfind : existingProviderOf σ r with
  | none => rw [hfind] at hp; exact absurd hp (by simp)
  | some ep => rw [hfind] at hp; exact ⟨ep, rfl, hp⟩

/-- An unconfirmed patient conflict pins down the patient found by MRN and
the mismatch condition on it. -/
lemma patientConflict_elim (σ : Store) (r : PatientIn)
    (hq : patientConflictUnconfirmed σ r = true) :
    ∃ pt, existingPatientOf σ r = some pt ∧
      ((lower pt.first_name != lower r.first_name
          || lower pt.last_name != lower r.last_name)
        && !r.confirm_patient_name_mismatch) = true := by
  unfold patientConflictUnconfirmed at hq
  cases hfind : existingPatientOf σ r with
  | none => rw [hfind] at hq; exact absurd hq (by simp)
  | some pt => rw [hfind] at hq; exact ⟨pt, rfl, hq⟩

lemma postProviderStore_patients (σ : Store) (r : PatientIn) :
    (postProviderStore σ r).patients = σ.patients :=
  (resolveProvider_frame σ _ _ _ _).1

lemma postProviderStore_orders (σ : Store) (r : PatientIn) :
    (postProviderStore σ r).orders = σ.orders :=
  (resolveProvider_frame σ _ _ _ _).2.1

lemma postProviderStore_next_patient_id (σ : Store) (r : PatientIn) :
    (postProviderStore σ r).next_patient_id = σ.next_patient_id :=
  (resolveProvider_frame σ _ _ _ _).2.2.1

lemma postProviderStore_next_order_id (σ : Store) (r : PatientIn) :
    (postProviderStore σ r).next_order_id = σ.next_order_id :=
  (resolveProvider_frame σ _ _ _ _).2.2.2

lemma matchingOrders_eq_of_orders_eq (σ' σ : Store) (pid : Nat) (med : String)
    (h : σ'.orders = σ.orders) :
    matchingOrders σ' pid med = matchingOrders σ pid med := by
  unfold matchingOrders
  rw [h]

/-- The commit phase when the submitted MRN resolves to an existing patient
and a case-insensitively matching order already exists and
`confirm_duplicate_order` is not set: the order 422 is returned on the
provider-resolved store, with no order written. -/
lemma commitPhase_dup_unconfirmed (σ : Store) (r : PatientIn) (pt : Patient)
    (eo : Order)
    (hpt : existingPatientOf σ r = some pt)
    (hord : (matchingOrders σ pt.id r.medication_name).head? = some eo)
    (hfl : r.confirm_duplicate_order = false) :
    commitPhase σ r =
      (postProviderStore σ r,
       .confirmation422 ⟨none, none, some ⟨r.medication_name, eo.id⟩⟩) := by
  have hord' : (matchingOrders (postProviderStore σ r) pt.id
      r.medication_name).head? = some eo := by
    rw [matchingOrders_eq_of_orders_eq _ σ _ _ (postProviderStore_orders σ r)]
    exact hord
  unfold postProviderStore at *
  simp only [commitPhase, hpt, resolvePatient_some]
  rw [hord']
  simp [hfl]

/-- The commit phase when the MRN resolves to an existing patient, a
matching order exists, and `confirm_duplicate_order` is set: a second order
is written for that patient. -/
lemma commitPhase_dup_confirmed (σ : Store) (r : PatientIn) (pt : Patient)
    (eo : Order)
    (hpt : existingPatientOf σ r = some pt)
    (hord : (matchingOrders σ pt.id r.medication_name).head? = some eo)
    (hfl : r.confirm_duplicate_order = true) :
    commitPhase σ r =
      ((addOrder (postProviderStore σ r) pt.id r.medication_name).1,
       .success (successMessage (provider_name_mismatchOf σ r)
           (patient_name_mismatchOf σ r) true r.medication_name)
         pt.id σ.next_order_id) := by
  have hord' : (matchingOrders (postProviderStore σ r) pt.id
      r.medication_name).head? = some eo := by
    rw [matchingOrders_eq_of_orders_eq _ σ _ _ (postProviderStore_orders σ r)]
    exact hord
  have hoid : (addOrder (postProviderStore σ r) pt.id r.medication_name).2.id
      = σ.next_order_id := postProviderStore_next_order_id σ r
  unfold postProviderStore at *
  simp only [commitPhase, hpt, resolvePatient_some]
  rw [hord']
  simp only [hfl, Bool.not_true, if_false, Bool.false_eq_true]
  rw [← hoid]

/-- The commit phase when the MRN resolves to an existing patient with no
matching order: the order is written directly. -/
lemma commitPhase_no_dup (σ : Store) (r : PatientIn) (pt : Patient)
    (hpt : existingPatientOf σ r = some pt)
    (hord : (matchingOrders σ pt.id r.medication_name).head? = none) :
    commitPhase σ r =
      ((addOrder (postProviderStore σ r) pt.id r.medication_name).1,
       .success (successMessage (provider_name_mismatchOf σ r)
           (patient_name_mismatchOf σ r) false r.medication_name)
         pt.id σ.next_order_id) := by
  have hord' : (matchingOrders (postProviderStore σ r) pt.id
      r.medication_name).head? = none := by
    rw [matchingOrders_eq_of_orders_eq _ σ _ _ (postProviderStore_orders σ r)]
    exact hord
  have hoid : (addOrder (postProviderStore σ r) pt.id r.medication_name).2.id
      = σ.next_order_id := postProviderStore_next_order_id σ r
  unfold postProviderStore at *
  simp only [commitPhase, hpt, resolvePatient_some]
  rw [hord']
  rw [← hoid]

/-- `find?` commutes with a map that fixes every non-matching element and
keeps the found element matching. -/
lemma find?_map_of_mem {α : Type} (l : List α) (q : α → Bool) (f : α → α)
    (a : α) (hfind : l.find? q = some a)
    (hf : ∀ x ∈ l, q x = false → f x = x)
    (hq' : q (f a) = true) :
    (l.map f).find? q = some (f a) := by
  induction l with
  | nil => cases hfind
  | cons b l ih =>
      cases hb : q b with
      | true =>
          rw [List.find?_cons_of_pos _ hb] at hfind
          injection hfind with hba
          subst hba
          rw [List.map_cons, List.find?_cons_of_pos _ hq']
      | false =>
          rw [List.find?_cons_of_neg _ (by simp [hb])] at hfind
          have hfb : f b = b := hf b (List.mem_cons_self b l) hb
          rw [List.map_cons, hfb, List.find?_cons_of_neg _ (by simp [hb])]
          exact ih hfind (fun x hx => hf x (List.mem_cons_of_mem b hx))

/-- The NPI of the resolved provider is always the submitted NPI. -/
lemma resolvedProvider_npi (σ : Store) (r : PatientIn) :
    (resolvedProvider σ r).npi = r.provider_npi := by
  unfold resolvedProvider resolveProvider
  cases hep : existingProviderOf σ r with
  | none => simp
  | some ep =>
      have hfind : σ.providers.find? (fun p => p.npi == r.provider_npi)
          = some ep := hep
      have hq0 := List.find?_some hfind
      have hq : (ep.npi == r.provider_npi) = true := hq0
      cases hm : provider_name_mismatchOf σ r <;> simp [eq_of_beq hq]

/-- After the provider block, looking the submitted NPI up again finds
exactly the resolved provider (in a well-formed store). -/
lemma existingProviderOf_post (σ : Store) (r : PatientIn) (hwf : σ.WF) :
    existingProviderOf (postProviderStore σ r) r =
      some (resolvedProvider σ r) := by
  unfold postProviderStore resolvedProvider resolveProvider
  cases hep : existingProviderOf σ r with
  | none =>
      simp only
      unfold existingProviderOf at hep ⊢
      rw [List.find?_append, hep]
      simp
  | some ep =>
      cases hm : provider_name_mismatchOf σ r with
      | false => exact hep
      | true =>
          simp only [if_true]
          have hfind : σ.providers.find? (fun p => p.npi == r.provider_npi)
              = some ep := hep
          have hq0 := List.find?_some hfind
          have hq : (ep.npi == r.provider_npi) = true := hq0
          have hmem : ep ∈ σ.providers := List.mem_of_find?_eq_some hfind
          have hres := find?_map_of_mem σ.providers
            (fun p => p.npi == r.provider_npi)
            (fun p => if p.id == ep.id
              then { ep with name := r.referring_provider } else p)
            ep hep ?_ ?_
          · have hfe : ((fun p => if (p.id == ep.id) = true
                then { ep with name := r.referring_provider } else p) ep)
                = { ep with name := r.referring_provider } := by simp
            exact hres.trans (congrArg some hfe)
          · intro x hx hqx
            have hqx' : (x.npi == r.provider_npi) = false := hqx
            have hxne : x ≠ ep := by
              intro h
              rw [h, hq] at hqx'
              cases hqx'
            have hid : x.id ≠ ep.id :=
              (hwf.1.forall (fun a b h => Ne.symm h)) hx hmem hxne
            simp [hid]
          · simp [hq]

/-- After the provider block, the provider name no longer mismatches the
submitted `referring_provider` (it was either already equal
case-insensitively, or has just been overwritten with the submitted name). -/
lemma provider_name_mismatchOf_post (σ : Store) (r : PatientIn)
    (hwf : σ.WF) :
    provider_name_mismatchOf (postProviderStore σ r) r = false := by
  unfold provider_name_mismatchOf
  rw [existingProviderOf_post σ r hwf]
  unfold resolvedProvider resolveProvider
  cases hep : existingProviderOf σ r with
  | none => simp
  | some ep =>
      cases hm : provider_name_mismatchOf σ r with
      | true => simp
      | false =>
          unfold provider_name_mismatchOf at hm
          rw [hep] at hm
          simp only [Bool.if_false_right, Bool.and_true]
          exact hm

/-- When the provider exists and its name does not mismatch, the provider
block writes nothing. -/
lemma postProviderStore_of_no_mismatch (σ : Store) (r : PatientIn)
    (ep : Provider) (hep : existingProviderOf σ r = some ep)
    (hm : provider_name_mismatchOf σ r = false) :
    postProviderStore σ r = σ := by
  unfold postProviderStore resolveProvider
  rw [hep, hm]
  simp

/-- The provider block adds at most one provider row. -/
lemma postProviderStore_providers_length (σ : Store) (r : PatientIn) :
    (postProviderStore σ r).providers.length ≤ σ.providers.length + 1 := by
  unfold postProviderStore resolveProvider
  cases existingProviderOf σ r with
  | none => simp
  | some ep =>
      cases provider_name_mismatchOf σ r <;> simp

/-- When a confirmed mismatch renames the provider, every provider row
carrying the submitted NPI in the written store is the renamed row (in a
well-formed store). -/
lemma postProviderStore_providers_renamed (σ : Store) (r : PatientIn)
    (ep : Provider) (hwf : σ.WF)
    (hep : existingProviderOf σ r = some ep)
    (hm : provider_name_mismatchOf σ r = true) :
    ∀ p ∈ (postProviderStore σ r).providers, p.npi = r.provider_npi →
      p = { ep with name := r.referring_provider } := by
  have hfind : σ.providers.find? (fun p => p.npi == r.provider_npi)
      = some ep := hep
  have hq0 := List.find?_some hfind
  have hq : (ep.npi == r.provider_npi) = true := hq0
  have hmem : ep ∈ σ.providers := List.mem_of_find?_eq_some hfind
  unfold postProviderStore resolveProvider
  rw [hep, hm]
  simp only [if_true, List.mem_map]
  rintro p ⟨x, hx, hfx⟩ hnpi
  by_cases hid : (x.id == ep.id) = true
  · rw [if_pos hid] at hfx
    exact hfx.symm
  · rw [if_neg hid] at hfx
    subst hfx
    by_cases hxe : x = ep
    · subst hxe; simp at hid
    · have : x.npi ≠ ep.npi :=
        (hwf.2.1.forall (fun a b h => Ne.symm h)) hx hmem hxe
      exact absurd (hnpi.trans (eq_of_beq hq).symm) this

/-- Creating the patient row (`resolvePatient` with no existing patient),
written out. -/
lemma resolvePatient_none (σ' : Store) (pr : Provider) (r : PatientIn) :
    resolvePatient σ' none pr r =
      ({ σ' with
           patients := σ'.patients ++
             [⟨σ'.next_patient_id, r.first_name, r.last_name, r.mrn,
               r.primary_diagnosis, r.additional_diagnoses,
               r.medication_history, r.records_text, pr.id⟩],
           next_patient_id := σ'.next_patient_id + 1 },
       ⟨σ'.next_patient_id, r.first_name, r.last_name, r.mrn,
        r.primary_diagnosis, r.additional_diagnoses, r.medication_history,
        r.records_text, pr.id⟩) := rfl

/-- In a well-formed store no order can reference a not-yet-assigned
patient id, so a fresh patient has no matching orders. -/
lemma matchingOrders_fresh_pid (σ σ₀ : Store) (pid : Nat) (med : String)
    (hwf : σ₀.WF) (horders : σ.orders = σ₀.orders)
    (hpid : σ₀.next_patient_id ≤ pid) :
    matchingOrders σ pid med = [] := by
  unfold matchingOrders
  rw [horders, List.filter_eq_nil_iff]
  intro o ho
  obtain ⟨p, hp, hop⟩ := hwf.2.2.2.2.2.2.2 o ho
  have hlt : p.id < σ₀.next_patient_id := hwf.2.2.2.2.2.1 p hp
  have : o.patient_id ≠ pid := by
    rw [hop]
    omega
  simp [this]

/-- None of the detection reads depends on `confirm_duplicate_order`. -/
lemma existingProviderOf_order_flag_irrel (σ : Store) (r : PatientIn)
    (b : Bool) :
    existingProviderOf σ { r with confirm_duplicate_order := b } =
      existingProviderOf σ r := rfl

lemma existingPatientOf_order_flag_irrel (σ : Store) (r : PatientIn)
    (b : Bool) :
    existingPatientOf σ { r with confirm_duplicate_order := b } =
      existingPatientOf σ r := rfl

lemma provider_name_mismatchOf_order_flag_irrel (σ : Store) (r : PatientIn)
    (b : Bool) :
    provider_name_mismatchOf σ { r with confirm_duplicate_order := b } =
      provider_name_mismatchOf σ r := rfl

lemma providerConflictUnconfirmed_order_flag_irrel (σ : Store)
    (r : PatientIn) (b : Bool) :
    providerConflictUnconfirmed σ { r with confirm_duplicate_order := b } =
      providerConflictUnconfirmed σ r := rfl

lemma patientConflictUnconfirmed_order_flag_irrel (σ : Store)
    (r : PatientIn) (b : Bool) :
    patientConflictUnconfirmed σ { r with confirm_duplicate_order := b } =
      patientConflictUnconfirmed σ r := rfl

/-- The patient-conflict check only reads the patient table. -/
lemma patientConflictUnconfirmed_eq_of_patients_eq (σ' σ : Store)
    (r : PatientIn) (h : σ'.patients = σ.patients) :
    patientConflictUnconfirmed σ' r = patientConflictUnconfirmed σ r := by
  unfold patientConflictUnconfirmed existingPatientOf
  rw [h]

lemma patientConflict_false_of_none (σ : Store) (r : PatientIn)
    (h : existingPatientOf σ r = none) :
    patientConflictUnconfirmed σ r = false := by
  unfold patientConflictUnconfirmed
  rw [h]

lemma providerConflict_false_of_no_mismatch (σ : Store) (r : PatientIn)
    (hm : provider_name_mismatchOf σ r = false) :
    providerConflictUnconfirmed σ r = false := by
  unfold providerConflictUnconfirmed
  unfold provider_name_mismatchOf at hm
  cases hep : existingProviderOf σ r with
  | none => rfl
  | some ep =>
      rw [hep] at hm
      have hm' : (lower ep.name != lower r.referring_provider) = false := hm
      show ((lower ep.name != lower r.referring_provider)
        && !r.confirm_provider_name_mismatch) = false
      rw [hm']
      rfl

lemma patientConflict_false_of_no_mismatch (σ : Store) (r : PatientIn)
    (hm : patient_name_mismatchOf σ r = false) :
    patientConflictUnconfirmed σ r = false := by
  unfold patientConflictUnconfirmed
  unfold patient_name_mismatchOf at hm
  cases hep : existingPatientOf σ r with
  | none => rfl
  | some ep =>
      rw [hep] at hm
      have hm' : (lower ep.first_name != lower r.first_name
          || lower ep.last_name != lower r.last_name) = false := hm
      show ((lower ep.first_name != lower r.first_name
          || lower ep.last_name != lower r.last_name)
        && !r.confirm_patient_name_mismatch) = false
      rw [hm']
      rfl

lemma addOrder_fst (σ : Store) (pid : Nat) (med : String) :
    (addOrder σ pid med).1 =
      { σ with orders := σ.orders ++ [⟨σ.next_order_id, pid, med⟩],
               next_order_id := σ.next_order_id + 1 } := rfl

/-- Looking a patient up by MRN only reads the patient table. -/
lemma existingPatientOf_eq_of_patients_eq (σ' σ : Store) (r : PatientIn)
    (h : σ'.patients = σ.patients) :
    existingPatientOf σ' r = existingPatientOf σ r := by
  unfold existingPatientOf
  rw [h]

/-- The commit phase for a previously unseen MRN (given that no stale order
references the fresh patient id): one patient row and one order row are
appended. -/
lemma commitPhase_new_patient (σ : Store) (r : PatientIn)
    (hptn : existingPatientOf σ r = none)
    (hfresh : matchingOrders σ σ.next_patient_id r.medication_name = []) :
    commitPhase σ r =
      ({ postProviderStore σ r with
           patients := σ.patients ++ [newPatient σ r],
           next_patient_id := σ.next_patient_id + 1,
           orders := σ.orders ++
             [⟨σ.next_order_id, σ.next_patient_id, r.medication_name⟩],
           next_order_id := σ.next_order_id + 1 },
       .success (successMessage (provider_name_mismatchOf σ r) false false
           r.medication_name)
         σ.next_patient_id σ.next_order_id) := by
  have hpm : patient_name_mismatchOf σ r = false := by
    unfold patient_name_mismatchOf
    rw [hptn]
  have hpat := postProviderStore_patients σ r
  have hords := postProviderStore_orders σ r
  have hnp := postProviderStore_next_patient_id σ r
  have hnoid := postProviderStore_next_order_id σ r
  unfold postProviderStore at *
  simp only [commitPhase, hptn, hpm, resolvePatient_none]
  rw [hnp, hpat, hords, hnoid]
  unfold matchingOrders at hfresh
  split
  · next eo heq =>
      exfalso
      simp only [matchingOrders] at heq
      rw [hfresh] at heq
      cases heq
  · simp [addOrder, newPatient, resolvedProvider]

/-! ### Claim theorems -/

/-- **C2.** For every intake request that triggers a provider or patient
identity conflict with the corresponding confirm flag false, the
reconciliation entry point returns status 422 with `requires_confirmation`
true and the conflict populated in `issues`, and the store is left entirely
unchanged: no Provider, Patient, or Order row is created or modified by
that call. -/
theorem create_patient_identity_conflict_422_store_unchanged
    (σ : Store) (r : PatientIn)
    (h : providerConflictUnconfirmed σ r = true ∨
         patientConflictUnconfirmed σ r = true) :
    (create_patient σ r).1 = σ ∧
    (create_patient σ r).2.status = 422 ∧
    (create_patient σ r).2.requiresConfirmation = true ∧
    create_patient σ r =
      (σ, .confirmation422
        { provider := providerIssueOf σ r, patient := patientIssueOf σ r,
          order := none }) ∧
    (providerConflictUnconfirmed σ r = true →
      (providerIssueOf σ r).isSome = true) ∧
    (patientConflictUnconfirmed σ r = true →
      (patientIssueOf σ r).isSome = true) := by
  have hcond :
      ((providerIssueOf σ r).isSome || (patientIssueOf σ r).isSome) = true := by
    rw [providerIssueOf_isSome, patientIssueOf_isSome]
    rcases h with h | h <;> simp [h]
  have heq := create_patient_of_issue σ r hcond
  refine ⟨by rw [heq], by rw [heq]; rfl, by rw [heq]; rfl, heq, ?_, ?_⟩
  · intro hp; rw [providerIssueOf_isSome, hp]
  · intro hq; rw [patientIssueOf_isSome, hq]

/-- Witness for C2 at the provider-mismatch fixture of `tests.py`. -/
theorem create_patient_identity_conflict_422_store_unchanged_witness :
    providerConflictUnconfirmed storeProvOriginal reqBase = true ∧
    (create_patient storeProvOriginal reqBase).1 = storeProvOriginal ∧
    (create_patient storeProvOriginal reqBase).2.status = 422 :=
  ⟨by decide,
   (create_patient_identity_conflict_422_store_unchanged storeProvOriginal
      reqBase (Or.inl (by decide))).1,
   (create_patient_identity_conflict_422_store_unchanged storeProvOriginal
      reqBase (Or.inl (by decide))).2.1⟩

/-- **C3.** For every intake request in which both a provider-name mismatch
and a patient-name mismatch are detected and neither confirm flag is set,
the single 422 response contains both `issues.provider` and
`issues.patient` together, with the existing value, the submitted value,
and the discriminating key (NPI or MRN) for each. -/
theorem create_patient_reports_both_identity_issues_together
    (σ : Store) (r : PatientIn)
    (hp : providerConflictUnconfirmed σ r = true)
    (hq : patientConflictUnconfirmed σ r = true) :
    ∃ ep pt, existingProviderOf σ r = some ep ∧
      existingPatientOf σ r = some pt ∧
      create_patient σ r = (σ, .confirmation422
        ⟨some ⟨ep.name, r.referring_provider, r.provider_npi⟩,
         some ⟨pt.first_name ++ " " ++ pt.last_name,
               r.first_name ++ " " ++ r.last_name, r.mrn⟩,
         none⟩) := by
  obtain ⟨ep, hep, hbp⟩ := providerConflict_elim σ r hp
  obtain ⟨pt, hpt, hbq⟩ := patientConflict_elim σ r hq
  have hPI : providerIssueOf σ r =
      some ⟨ep.name, r.referring_provider, r.provider_npi⟩ := by
    unfold providerIssueOf
    rw [hep]
    simp [hbp]
  have hQI : patientIssueOf σ r =
      some ⟨pt.first_name ++ " " ++ pt.last_name,
            r.first_name ++ " " ++ r.last_name, r.mrn⟩ := by
    unfold patientIssueOf
    rw [hpt]
    simp [hbq]
  have hcond :
      ((providerIssueOf σ r).isSome || (patientIssueOf σ r).isSome) = true := by
    rw [hPI, hQI]; rfl
  refine ⟨ep, pt, hep, hpt, ?_⟩
  rw [create_patient_of_issue σ r hcond, hPI, hQI]

/-- Witness for C3 at the double-mismatch fixture. -/
theorem create_patient_reports_both_identity_issues_together_witness :
    providerConflictUnconfirmed storeBothMismatch reqBase = true ∧
    patientConflictUnconfirmed storeBothMismatch reqBase = true ∧
    ∃ ep pt, existingProviderOf storeBothMismatch reqBase = some ep ∧
      existingPatientOf storeBothMismatch reqBase = some pt ∧
      create_patient storeBothMismatch reqBase =
        (storeBothMismatch, .confirmation422
          ⟨some ⟨ep.name, reqBase.referring_provider, reqBase.provider_npi⟩,
           some ⟨pt.first_name ++ " " ++ pt.last_name,
                 reqBase.first_name ++ " " ++ reqBase.last_name, reqBase.mrn⟩,
           none⟩) :=
  ⟨by decide, by decide,
   create_patient_reports_both_identity_issues_together storeBothMismatch
     reqBase (by decide) (by decide)⟩

/-- The per-page skip of `extract_records_text`: failing pages contribute
nothing, so the extraction over any page list equals the extraction over
its non-failing pages. -/
lemma filterMap_pageText_filter (ps : List PageResult) :
    ps.filterMap pageText =
      (ps.filter (fun p => !p.isFailure)).filterMap pageText := by
  induction ps with
  | nil => rfl
  | cons p ps ih =>
      cases p <;> simp [pageText, PageResult.isFailure, ih]

/-- **C10.** For every uploaded document, the text extractor skips any
individual page whose extraction fails and still returns the concatenated
text of the remaining pages; if the whole document cannot be parsed, it
returns a reported error response (status 400 with an error message) and
never raises an unhandled exception (every outcome is one of the two
reported responses). -/
theorem extract_records_text_skips_failed_pages_reports_errors
    (ps : List PageResult) (msg : String) :
    extract_records_text (.readable ps) =
      extract_records_text (.readable (ps.filter (fun p => !p.isFailure))) ∧
    extract_records_text (.readable ps) =
      .ok (String.intercalate "\n\n"
        ((ps.filterMap pageText).map (fun t => t.trim))) ∧
    extract_records_text (.unreadable msg) =
      .error ("Failed to extract text: " ++ msg) ∧
    (∀ doc : PdfDocModel, (extract_records_text doc).status = 200 ∨
      (extract_records_text doc).status = 400) := by
  refine ⟨?_, rfl, rfl, ?_⟩
  · simp only [extract_records_text]
    rw [filterMap_pageText_filter]
  · intro doc
    cases doc <;> simp [extract_records_text, ExtractResponse.status]

/-- **C9.** When a Patient with the submitted MRN already exists and the
call proceeds past identity confirmation, every stored field of that
Patient — first_name, last_name, primary_diagnosis, additional_diagnoses,
medication_history, records_text, and provider reference — is left
unchanged (the patient table is exactly as before, so the submission's
differing values are silently discarded rather than merged), and the only
row ever added for that patient is the single new Order of the success
path (none at all on the order-422 path). -/
theorem create_patient_existing_patient_fields_discarded
    (σ : Store) (r : PatientIn) (pt : Patient)
    (hpt : existingPatientOf σ r = some pt)
    (hp : providerConflictUnconfirmed σ r = false)
    (hq : patientConflictUnconfirmed σ r = false) :
    (create_patient σ r).1.patients = σ.patients ∧
    existingPatientOf (create_patient σ r).1 r = some pt ∧
    (∀ msg pid oid, (create_patient σ r).2 = .success msg pid oid →
      pid = pt.id ∧
      (create_patient σ r).1.orders =
        σ.orders ++ [⟨σ.next_order_id, pt.id, r.medication_name⟩]) ∧
    (∀ iss, (create_patient σ r).2 = .confirmation422 iss →
      (create_patient σ r).1.orders = σ.orders) := by
  have hcp := create_patient_of_no_issue σ r hp hq
  rw [hcp]
  cases hord : (matchingOrders σ pt.id r.medication_name).head? with
  | some eo =>
      cases hfl : r.confirm_duplicate_order with
      | false =>
          rw [commitPhase_dup_unconfirmed σ r pt eo hpt hord hfl]
          refine ⟨postProviderStore_patients σ r, ?_, ?_, ?_⟩
          · exact (existingPatientOf_eq_of_patients_eq _ σ r
              (postProviderStore_patients σ r)).trans hpt
          · intro msg pid oid h; cases h
          · intro iss _; exact postProviderStore_orders σ r
      | true =>
          rw [commitPhase_dup_confirmed σ r pt eo hpt hord hfl]
          simp only [addOrder_fst]
          refine ⟨postProviderStore_patients σ r, ?_, ?_, ?_⟩
          · exact (existingPatientOf_eq_of_patients_eq _ σ r
              (postProviderStore_patients σ r)).trans hpt
          · intro msg pid oid h
            injection h with h₁ h₂ h₃
            refine ⟨h₂.symm, ?_⟩
            rw [postProviderStore_orders σ r, postProviderStore_next_order_id σ r]
          · intro iss h; cases h
  | none =>
      rw [commitPhase_no_dup σ r pt hpt hord]
      simp only [addOrder_fst]
      refine ⟨postProviderStore_patients σ r, ?_, ?_, ?_⟩
      · exact (existingPatientOf_eq_of_patients_eq _ σ r
          (postProviderStore_patients σ r)).trans hpt
      · intro msg pid oid h
        injection h with h₁ h₂ h₃
        refine ⟨h₂.symm, ?_⟩
        rw [postProviderStore_orders σ r, postProviderStore_next_order_id σ r]
      · intro iss h; cases h

/-- Witness for C9: an existing John Doe with differing stored
diagnosis/history/records fields is reused untouched. -/
theorem create_patient_existing_patient_fields_discarded_witness :
    existingPatientOf storeJohn reqBase =
      some ⟨1, "John", "Doe", "123456", "G70.00", [], [], "", 1⟩ ∧
    providerConflictUnconfirmed storeJohn reqBase = false ∧
    patientConflictUnconfirmed storeJohn reqBase = false ∧
    (create_patient storeJohn reqBase).1.patients = storeJohn.patients :=
  ⟨by decide, by decide, by decide,
   (create_patient_existing_patient_fields_discarded storeJohn reqBase
     ⟨1, "John", "Doe", "123456", "G70.00", [], [], "", 1⟩
     (by decide) (by decide) (by decide)).1⟩

/-- **C6.** For every Patient that already has exactly one Order whose
medication_name matches the submitted medication_name case-insensitively,
an intake request (passing identity checks) with `confirm_duplicate_order`
false returns 422 with `issues.order` carrying the medication name and the
existing order id and creates no Order; the same request with the flag
true succeeds and creates a second Order, leaving the patient's total
Order count for that medication at 2. -/
theorem create_patient_duplicate_order_gate
    (σ : Store) (r : PatientIn) (pt : Patient) (eo : Order)
    (hpt : existingPatientOf σ r = some pt)
    (hp : providerConflictUnconfirmed σ r = false)
    (hq : patientConflictUnconfirmed σ r = false)
    (hmatch : matchingOrders σ pt.id r.medication_name = [eo]) :
    (r.confirm_duplicate_order = false →
      (create_patient σ r).2 =
        .confirmation422 ⟨none, none, some ⟨r.medication_name, eo.id⟩⟩ ∧
      (create_patient σ r).1.orders = σ.orders) ∧
    (r.confirm_duplicate_order = true →
      (∃ msg, (create_patient σ r).2 = .success msg pt.id σ.next_order_id) ∧
      (matchingOrders (create_patient σ r).1 pt.id r.medication_name).length
        = 2) := by
  have hcp := create_patient_of_no_issue σ r hp hq
  have hord : (matchingOrders σ pt.id r.medication_name).head? = some eo := by
    rw [hmatch]; rfl
  constructor
  · intro hfl
    rw [hcp, commitPhase_dup_unconfirmed σ r pt eo hpt hord hfl]
    exact ⟨rfl, postProviderStore_orders σ r⟩
  · intro hfl
    rw [hcp, commitPhase_dup_confirmed σ r pt eo hpt hord hfl]
    refine ⟨⟨_, rfl⟩, ?_⟩
    simp only [addOrder_fst]
    unfold matchingOrders
    simp only [List.filter_append]
    have hnew : matchingOrders (postProviderStore σ r) pt.id r.medication_name
        = [eo] := by
      rw [matchingOrders_eq_of_orders_eq _ σ _ _ (postProviderStore_orders σ r)]
      exact hmatch
    unfold matchingOrders at hnew
    rw [hnew]
    simp

/-- Witness for C6: John Doe already has one IVIG order; the unconfirmed
resubmission is refused with `issues.order`, the confirmed one yields two
IVIG orders. -/
theorem create_patient_duplicate_order_gate_witness :
    existingPatientOf storeJohnIvig reqBase =
      some ⟨1, "John", "Doe", "123456", "G70.00", [], [], "", 1⟩ ∧
    matchingOrders storeJohnIvig 1 reqBase.medication_name = [⟨1, 1, "IVIG"⟩] ∧
    (create_patient storeJohnIvig reqBase).2 =
      .confirmation422 ⟨none, none, some ⟨"IVIG", 1⟩⟩ ∧
    (create_patient storeJohnIvig reqBase).1.orders = storeJohnIvig.orders :=
  ⟨by decide, by decide,
   ((create_patient_duplicate_order_gate storeJohnIvig reqBase
       ⟨1, "John", "Doe", "123456", "G70.00", [], [], "", 1⟩ ⟨1, 1, "IVIG"⟩
       (by decide) (by decide) (by decide) (by decide)).1 (by decide)).1,
   ((create_patient_duplicate_order_gate storeJohnIvig reqBase
       ⟨1, "John", "Doe", "123456", "G70.00", [], [], "", 1⟩ ⟨1, 1, "IVIG"⟩
       (by decide) (by decide) (by decide) (by decide)).1 (by decide)).2⟩

/-- Counterexample to C5 as stated: with both identity mismatches present,
both identity confirm flags set, and an existing IVIG order for the patient
with `confirm_duplicate_order` unset, the resubmission does not succeed —
it returns the order 422 instead. -/
theorem create_patient_both_confirmed_can_still_422 :
    provider_name_mismatchOf storeBothMismatchIvig reqBothConfirm = true ∧
    patient_name_mismatchOf storeBothMismatchIvig reqBothConfirm = true ∧
    reqBothConfirm.confirm_provider_name_mismatch = true ∧
    reqBothConfirm.confirm_patient_name_mismatch = true ∧
    (create_patient storeBothMismatchIvig reqBothConfirm).2.status = 422 ∧
    (create_patient storeBothMismatchIvig reqBothConfirm).2.requiresConfirmation
      = true := by
  decide

/-- **C5 (amended).** For every resubmission with both a provider-name
mismatch and a patient-name mismatch and both identity confirm flags true,
provided the resolved patient has no unconfirmed duplicate order for the
submitted medication, the call succeeds for the existing patient; and in
either case — even when the duplicate-order 422 is returned instead — the
existing Provider's stored name is updated to the submitted
`referring_provider` while the existing Patient's stored first and last
names are left entirely unchanged (confirmation never renames the
patient). -/
theorem create_patient_confirmed_mismatches_update_provider_keep_patient
    (σ : Store) (r : PatientIn) (ep : Provider) (pt : Patient)
    (hwf : σ.WF)
    (hep : existingProviderOf σ r = some ep)
    (hmp : provider_name_mismatchOf σ r = true)
    (hpt : existingPatientOf σ r = some pt)
    (hmq : patient_name_mismatchOf σ r = true)
    (hcp : r.confirm_provider_name_mismatch = true)
    (hcq : r.confirm_patient_name_mismatch = true) :
    ((matchingOrders σ pt.id r.medication_name).head? = none ∨
        r.confirm_duplicate_order = true →
      ∃ msg oid, (create_patient σ r).2 = .success msg pt.id oid) ∧
    (∀ p ∈ (create_patient σ r).1.providers, p.npi = r.provider_npi →
       p = { ep with name := r.referring_provider }) ∧
    (create_patient σ r).1.patients = σ.patients := by
  have hpc : providerConflictUnconfirmed σ r = false := by
    unfold providerConflictUnconfirmed
    rw [hep]
    simp [hcp]
  have hqc : patientConflictUnconfirmed σ r = false := by
    unfold patientConflictUnconfirmed
    rw [hpt]
    simp [hcq]
  have hcpn := create_patient_of_no_issue σ r hpc hqc
  have hprov := postProviderStore_providers_renamed σ r ep hwf hep hmp
  cases hord : (matchingOrders σ pt.id r.medication_name).head? with
  | none =>
      rw [hcpn, commitPhase_no_dup σ r pt hpt hord]
      exact ⟨fun _ => ⟨_, _, rfl⟩, fun p hp hnpi => hprov p hp hnpi,
        postProviderStore_patients σ r⟩
  | some eo =>
      cases hfl : r.confirm_duplicate_order with
      | true =>
          rw [hcpn, commitPhase_dup_confirmed σ r pt eo hpt hord hfl]
          exact ⟨fun _ => ⟨_, _, rfl⟩, fun p hp hnpi => hprov p hp hnpi,
            postProviderStore_patients σ r⟩
      | false =>
          rw [hcpn, commitPhase_dup_unconfirmed σ r pt eo hpt hord hfl]
          refine ⟨?_, fun p hp hnpi => hprov p hp hnpi,
            postProviderStore_patients σ r⟩
          intro hgate
          rcases hgate with h | h <;> cases h

/-- Witness for the amended C5, exercising both branches: at the
double-mismatch fixture with no pre-existing order the call succeeds for
the existing patient; at the same fixture with a pre-existing IVIG order
the call is a 422, yet the patient table is still untouched. -/
theorem create_patient_confirmed_mismatches_witness :
    Store.WF storeBothMismatch ∧
    provider_name_mismatchOf storeBothMismatch reqBothConfirm = true ∧
    patient_name_mismatchOf storeBothMismatch reqBothConfirm = true ∧
    (∃ msg oid, (create_patient storeBothMismatch reqBothConfirm).2 =
      .success msg 1 oid) ∧
    (create_patient storeBothMismatch reqBothConfirm).1.patients =
      storeBothMismatch.patients ∧
    (create_patient storeBothMismatchIvig reqBothConfirm).2.status = 422 ∧
    (create_patient storeBothMismatchIvig reqBothConfirm).1.patients =
      storeBothMismatchIvig.patients :=
  ⟨by decide, by decide, by decide,
   (create_patient_confirmed_mismatches_update_provider_keep_patient
      storeBothMismatch reqBothConfirm ⟨1, "Dr. Original", "1234567890"⟩
      ⟨1, "Jane", "Roe", "123456", "G70.00", [], [], "", 1⟩
      (by decide) (by decide) (by decide) (by decide) (by decide)
      (by decide) (by decide)).1 (Or.inl (by decide)),
   (create_patient_confirmed_mismatches_update_provider_keep_patient
      storeBothMismatch reqBothConfirm ⟨1, "Dr. Original", "1234567890"⟩
      ⟨1, "Jane", "Roe", "123456", "G70.00", [], [], "", 1⟩
      (by decide) (by decide) (by decide) (by decide) (by decide)
      (by decide) (by decide)).2.2,
   by decide,
   (create_patient_confirmed_mismatches_update_provider_keep_patient
      storeBothMismatchIvig reqBothConfirm ⟨1, "Dr. Original", "1234567890"⟩
      ⟨1, "Jane", "Roe", "123456", "G70.00", [], [], "", 1⟩
      (by decide) (by decide) (by decide) (by decide) (by decide)
      (by decide) (by decide)).2.2⟩

/-- **C7.** In every call where identity conflicts are absent or confirmed,
Provider and Patient resolution happens strictly before the duplicate-order
check: a 422 `AwaitingOrderConfirmation` response leaves the resolved
Provider and Patient persisted (both lookups succeed against the
post-state) while creating no Order, and a retried call with only the
order flag now set finds the Patient already there, reuses it by MRN
lookup (same patient id, no patient row added) and creates the order. -/
theorem create_patient_resolves_identity_before_order_check
    (σ : Store) (r : PatientIn) (pt : Patient) (eo : Order)
    (hwf : σ.WF)
    (hp : providerConflictUnconfirmed σ r = false)
    (hq : patientConflictUnconfirmed σ r = false)
    (hpt : existingPatientOf σ r = some pt)
    (hord : (matchingOrders σ pt.id r.medication_name).head? = some eo)
    (hfl : r.confirm_duplicate_order = false) :
    create_patient σ r =
      (postProviderStore σ r,
       .confirmation422 ⟨none, none, some ⟨r.medication_name, eo.id⟩⟩) ∧
    (create_patient σ r).1.orders = σ.orders ∧
    existingPatientOf (create_patient σ r).1 r = some pt ∧
    existingProviderOf (create_patient σ r).1 r =
      some (resolvedProvider σ r) ∧
    (∃ msg,
      create_patient (create_patient σ r).1
          { r with confirm_duplicate_order := true } =
        ((addOrder (create_patient σ r).1 pt.id r.medication_name).1,
         .success msg pt.id σ.next_order_id)) ∧
    (create_patient (create_patient σ r).1
        { r with confirm_duplicate_order := true }).1.patients =
      σ.patients := by
  have hcpn := create_patient_of_no_issue σ r hp hq
  have heq : create_patient σ r =
      (postProviderStore σ r,
       .confirmation422 ⟨none, none, some ⟨r.medication_name, eo.id⟩⟩) := by
    rw [hcpn]
    exact commitPhase_dup_unconfirmed σ r pt eo hpt hord hfl
  have hpat := postProviderStore_patients σ r
  have hords := postProviderStore_orders σ r
  have hpost := existingProviderOf_post σ r hwf
  have hmpost := provider_name_mismatchOf_post σ r hwf
  -- facts about the retried call on the post-state
  have hep' : existingProviderOf (postProviderStore σ r)
      { r with confirm_duplicate_order := true } =
      some (resolvedProvider σ r) := by
    rw [existingProviderOf_order_flag_irrel]
    exact hpost
  have hm' : provider_name_mismatchOf (postProviderStore σ r)
      { r with confirm_duplicate_order := true } = false := by
    rw [provider_name_mismatchOf_order_flag_irrel]
    exact hmpost
  have hp' : providerConflictUnconfirmed (postProviderStore σ r)
      { r with confirm_duplicate_order := true } = false :=
    providerConflict_false_of_no_mismatch _ _ hm'
  have hq' : patientConflictUnconfirmed (postProviderStore σ r)
      { r with confirm_duplicate_order := true } = false := by
    rw [patientConflictUnconfirmed_order_flag_irrel,
      patientConflictUnconfirmed_eq_of_patients_eq _ σ r hpat]
    exact hq
  have hpt' : existingPatientOf (postProviderStore σ r)
      { r with confirm_duplicate_order := true } = some pt := by
    rw [existingPatientOf_order_flag_irrel,
      existingPatientOf_eq_of_patients_eq _ σ r hpat]
    exact hpt
  have hord' : (matchingOrders (postProviderStore σ r) pt.id
      ({ r with confirm_duplicate_order := true } : PatientIn).medication_name).head?
      = some eo := by
    show (matchingOrders (postProviderStore σ r) pt.id
      r.medication_name).head? = some eo
    rw [matchingOrders_eq_of_orders_eq _ σ _ _ hords]
    exact hord
  have hpost' : postProviderStore (postProviderStore σ r)
      { r with confirm_duplicate_order := true } = postProviderStore σ r :=
    postProviderStore_of_no_mismatch _ _ (resolvedProvider σ r) hep' hm'
  have hretry : create_patient (postProviderStore σ r)
      { r with confirm_duplicate_order := true } =
      ((addOrder (postProviderStore σ r) pt.id r.medication_name).1,
       .success (successMessage
           (provider_name_mismatchOf (postProviderStore σ r)
             { r with confirm_duplicate_order := true })
           (patient_name_mismatchOf (postProviderStore σ r)
             { r with confirm_duplicate_order := true })
           true r.medication_name)
         pt.id σ.next_order_id) := by
    rw [create_patient_of_no_issue _ _ hp' hq',
      commitPhase_dup_confirmed _ _ pt eo hpt' hord' rfl, hpost']
    rw [postProviderStore_next_order_id σ r]
  refine ⟨heq, by rw [heq]; exact hords, ?_, ?_, ?_, ?_⟩
  · rw [heq]
    exact (existingPatientOf_eq_of_patients_eq _ σ r hpat).trans hpt
  · rw [heq]
    exact hpost
  · rw [heq]
    exact ⟨_, hretry⟩
  · rw [heq]
    show (create_patient (postProviderStore σ r)
        { r with confirm_duplicate_order := true }).1.patients = σ.patients
    rw [hretry]
    exact hpat

/-- Witness for C7: John Doe with an existing IVIG order, identity clean,
order flag unset; the retry with the flag set succeeds on the same patient. -/
theorem create_patient_resolves_identity_before_order_check_witness :
    Store.WF storeJohnIvig ∧
    (create_patient storeJohnIvig reqBase).2 =
      .confirmation422 ⟨none, none, some ⟨"IVIG", 1⟩⟩ ∧
    existingPatientOf (create_patient storeJohnIvig reqBase).1 reqBase =
      some ⟨1, "John", "Doe", "123456", "G70.00", [], [], "", 1⟩ ∧
    (∃ msg, create_patient (create_patient storeJohnIvig reqBase).1
        { reqBase with confirm_duplicate_order := true } =
      ((addOrder (create_patient storeJohnIvig reqBase).1 1 "IVIG").1,
       .success msg 1 2)) :=
  ⟨by decide,
   by
     rw [(create_patient_resolves_identity_before_order_check storeJohnIvig
       reqBase ⟨1, "John", "Doe", "123456", "G70.00", [], [], "", 1⟩
       ⟨1, 1, "IVIG"⟩ (by decide) (by decide) (by decide) (by decide)
       (by decide) (by decide)).1]
     rfl,
   (create_patient_resolves_identity_before_order_check storeJohnIvig
       reqBase ⟨1, "John", "Doe", "123456", "G70.00", [], [], "", 1⟩
       ⟨1, 1, "IVIG"⟩ (by decide) (by decide) (by decide) (by decide)
       (by decide) (by decide)).2.2.1,
   (create_patient_resolves_identity_before_order_check storeJohnIvig
       reqBase ⟨1, "John", "Doe", "123456", "G70.00", [], [], "", 1⟩
       ⟨1, 1, "IVIG"⟩ (by decide) (by decide) (by decide) (by decide)
       (by decide) (by decide)).2.2.2.2.1⟩

/-- A call whose submitted identifiers resolve to an existing,
case-insensitively same-named patient (and a provider with no name
mismatch) succeeds for that patient and adds no patient row, provided the
duplicate-order gate passes. -/
lemma create_patient_reuses_matching_patient
    (σ' : Store) (r₂ : PatientIn) (pt : Patient) (pr : Provider)
    (hep : existingProviderOf σ' r₂ = some pr)
    (hm : provider_name_mismatchOf σ' r₂ = false)
    (hpt : existingPatientOf σ' r₂ = some pt)
    (hfn : lower pt.first_name = lower r₂.first_name)
    (hln : lower pt.last_name = lower r₂.last_name)
    (hgate : (matchingOrders σ' pt.id r₂.medication_name).head? = none ∨
             r₂.confirm_duplicate_order = true) :
    (∃ msg oid, (create_patient σ' r₂).2 = .success msg pt.id oid) ∧
    (create_patient σ' r₂).1.patients = σ'.patients := by
  have hpm : patient_name_mismatchOf σ' r₂ = false := by
    unfold patient_name_mismatchOf
    rw [hpt]
    have h1 : (lower pt.first_name != lower r₂.first_name) = false := by
      rw [hfn]; exact bne_self_eq_false _
    have h2 : (lower pt.last_name != lower r₂.last_name) = false := by
      rw [hln]; exact bne_self_eq_false _
    show ((lower pt.first_name != lower r₂.first_name)
      || (lower pt.last_name != lower r₂.last_name)) = false
    rw [h1, h2]
    rfl
  have hq2 := patientConflict_false_of_no_mismatch σ' r₂ hpm
  have hp2 := providerConflict_false_of_no_mismatch σ' r₂ hm
  have hcpn := create_patient_of_no_issue σ' r₂ hp2 hq2
  have hpost := postProviderStore_of_no_mismatch σ' r₂ pr hep hm
  cases hord2 : (matchingOrders σ' pt.id r₂.medication_name).head? with
  | none =>
      rw [hcpn, commitPhase_no_dup σ' r₂ pt hpt hord2]
      refine ⟨⟨_, _, rfl⟩, ?_⟩
      show (addOrder (postProviderStore σ' r₂) pt.id
        r₂.medication_name).1.patients = σ'.patients
      rw [hpost]
      rfl
  | some eo =>
      have hfl : r₂.confirm_duplicate_order = true := by
        rcases hgate with h | h
        · rw [hord2] at h; cases h
        · exact h
      rw [hcpn, commitPhase_dup_confirmed σ' r₂ pt eo hpt hord2 hfl]
      refine ⟨⟨_, _, rfl⟩, ?_⟩
      show (addOrder (postProviderStore σ' r₂) pt.id
        r₂.medication_name).1.patients = σ'.patients
      rw [hpost]
      rfl

/-- Counterexample to C8 as stated: an identical second submission (same
MRN, same names, same medication, no confirm flag) is refused with 422 and
creates no second Order; and a first submission on a fresh MRN whose NPI
collides with a differently-named provider creates no Patient at all. -/
theorem create_patient_second_submission_can_create_no_order :
    (create_patient emptyStore reqBase).2.status = 200 ∧
    (create_patient (create_patient emptyStore reqBase).1 reqBase).2.status
      = 422 ∧
    (create_patient (create_patient emptyStore reqBase).1
      reqBase).1.orders.length = 1 ∧
    existingPatientOf storeProvOriginal reqBase = none ∧
    (create_patient storeProvOriginal reqBase).2.status = 422 ∧
    (create_patient storeProvOriginal reqBase).1.patients.length = 0 := by
  decide

/-- **C8 (amended).** For every valid intake request whose MRN is not
already in the store and that raises no unconfirmed provider-name
conflict, one submission creates exactly one Patient (with the submitted
fields) and exactly one Order, and at most one Provider; and a second
submission with the same MRN, names, and provider identifiers that passes
the duplicate-order gate (different medication name, or
`confirm_duplicate_order` set) reuses the existing Patient — same patient
id, no patient row added — and creates a second Order, never a duplicate
Patient row. -/
theorem create_patient_new_mrn_create_then_reuse
    (σ : Store) (r r₂ : PatientIn)
    (hwf : σ.WF)
    (hptn : existingPatientOf σ r = none)
    (hp : providerConflictUnconfirmed σ r = false)
    (h2mrn : r₂.mrn = r.mrn)
    (h2fn : r₂.first_name = r.first_name)
    (h2ln : r₂.last_name = r.last_name)
    (h2npi : r₂.provider_npi = r.provider_npi)
    (h2rp : r₂.referring_provider = r.referring_provider)
    (hgate : (lower r₂.medication_name != lower r.medication_name) = true ∨
             r₂.confirm_duplicate_order = true) :
    (∃ msg, (create_patient σ r).2 =
      .success msg σ.next_patient_id σ.next_order_id) ∧
    (create_patient σ r).1.patients = σ.patients ++ [newPatient σ r] ∧
    (create_patient σ r).1.orders = σ.orders ++
      [⟨σ.next_order_id, σ.next_patient_id, r.medication_name⟩] ∧
    (create_patient σ r).1.providers.length ≤ σ.providers.length + 1 ∧
    (∃ msg oid, (create_patient (create_patient σ r).1 r₂).2 =
      .success msg σ.next_patient_id oid) ∧
    (create_patient (create_patient σ r).1 r₂).1.patients =
      (create_patient σ r).1.patients := by
  have hqc := patientConflict_false_of_none σ r hptn
  have hfresh : matchingOrders σ σ.next_patient_id r.medication_name = [] :=
    matchingOrders_fresh_pid σ σ _ _ hwf rfl (Nat.le_refl _)
  have heq : create_patient σ r =
      ({ postProviderStore σ r with
           patients := σ.patients ++ [newPatient σ r],
           next_patient_id := σ.next_patient_id + 1,
           orders := σ.orders ++
             [⟨σ.next_order_id, σ.next_patient_id, r.medication_name⟩],
           next_order_id := σ.next_order_id + 1 },
       .success (successMessage (provider_name_mismatchOf σ r) false false
           r.medication_name)
         σ.next_patient_id σ.next_order_id) :=
    (create_patient_of_no_issue σ r hp hqc).trans
      (commitPhase_new_patient σ r hptn hfresh)
  have hSpat : (create_patient σ r).1.patients =
      σ.patients ++ [newPatient σ r] := by rw [heq]
  have hSord : (create_patient σ r).1.orders = σ.orders ++
      [⟨σ.next_order_id, σ.next_patient_id, r.medication_name⟩] := by
    rw [heq]
  have hSprov : (create_patient σ r).1.providers =
      (postProviderStore σ r).providers := by rw [heq]
  -- reads of the second submission against the written store
  have hpt2 : existingPatientOf (create_patient σ r).1 r₂ =
      some (newPatient σ r) := by
    unfold existingPatientOf
    rw [hSpat, h2mrn, List.find?_append]
    have h0 : σ.patients.find? (fun p => p.mrn == r.mrn) = none := hptn
    rw [h0]
    simp [newPatient]
  have hep2 : existingProviderOf (create_patient σ r).1 r₂ =
      some (resolvedProvider σ r) := by
    unfold existingProviderOf
    rw [hSprov, h2npi]
    exact existingProviderOf_post σ r hwf
  have hm2 : provider_name_mismatchOf (create_patient σ r).1 r₂ = false := by
    unfold provider_name_mismatchOf
    rw [hep2, h2rp]
    have h3 := provider_name_mismatchOf_post σ r hwf
    unfold provider_name_mismatchOf at h3
    rw [existingProviderOf_post σ r hwf] at h3
    exact h3
  have hgate2 : (matchingOrders (create_patient σ r).1 (newPatient σ r).id
      r₂.medication_name).head? = none ∨
      r₂.confirm_duplicate_order = true := by
    rcases hgate with hmed | hconf
    · left
      unfold matchingOrders
      rw [hSord, List.filter_append]
      have hold : σ.orders.filter
          (fun o => o.patient_id == (newPatient σ r).id
            && lower o.medication_name == lower r₂.medication_name) = [] :=
        matchingOrders_fresh_pid σ σ _ _ hwf rfl (Nat.le_refl _)
      rw [hold]
      have hne : (lower r.medication_name == lower r₂.medication_name)
          = false := by
        rw [beq_eq_false_iff_ne]
        exact fun h => (bne_iff_ne.mp hmed) h.symm
      simp [hne]
    · right; exact hconf
  have hreuse := create_patient_reuses_matching_patient
    (create_patient σ r).1 r₂ (newPatient σ r) (resolvedProvider σ r)
    hep2 hm2 hpt2 (by rw [h2fn]; rfl) (by rw [h2ln]; rfl) hgate2
  refine ⟨⟨_, by rw [heq]⟩, hSpat, hSord, ?_, ?_, hreuse.2⟩
  · rw [hSprov]
    exact postProviderStore_providers_length σ r
  · exact hreuse.1

/-- Witness for the amended C8 on the empty store: submit, then resubmit
with the duplicate-order flag set. -/
theorem create_patient_new_mrn_create_then_reuse_witness :
    Store.WF emptyStore ∧
    existingPatientOf emptyStore reqBase = none ∧
    (∃ msg, (create_patient emptyStore reqBase).2 = .success msg 1 1) ∧
    (∃ msg oid, (create_patient (create_patient emptyStore reqBase).1
        { reqBase with confirm_duplicate_order := true }).2 =
      .success msg 1 oid) :=
  ⟨by decide, by decide,
   (create_patient_new_mrn_create_then_reuse emptyStore reqBase
      { reqBase with confirm_duplicate_order := true }
      (by decide) (by decide) (by decide) (by decide) (by decide)
      (by decide) (by decide) (by decide) (Or.inr (by decide))).1,
   (create_patient_new_mrn_create_then_reuse emptyStore reqBase
      { reqBase with confirm_duplicate_order := true }
      (by decide) (by decide) (by decide) (by decide) (by decide)
      (by decide) (by decide) (by decide) (Or.inr (by decide))).2.2.2.2.1⟩

/-- **C1 (what the code does).** The reconciliation entry point performs no
digit validation of `mrn` or `provider_npi`: a request with a 5-digit MRN
(or a 9-digit NPI) is not rejected with a 400 validation error before any
store lookup — it flows through the lookups and the commit, returning 200
and creating Provider, Patient, and Order rows keyed by the malformed
identifier. -/
theorem create_patient_accepts_malformed_identifiers :
    (create_patient emptyStore reqShortMrn).2.status = 200 ∧
    (∃ p ∈ (create_patient emptyStore reqShortMrn).1.patients,
      p.mrn = "12345") ∧
    (create_patient emptyStore reqShortMrn).1.orders.length = 1 ∧
    (create_patient emptyStore reqShortNpi).2.status = 200 ∧
    (∃ p ∈ (create_patient emptyStore reqShortNpi).1.providers,
      p.npi = "123456789") := by
  decide

/-- **C4 (what the code does).** When the store surfaces a
uniqueness-constraint violation at commit (the loser of a race: its
detection reads saw the empty store, but a concurrent identical submission
committed first), `create_patient` — which has no `except IntegrityError`
handler — lets the error propagate as an unhandled exception instead of
reporting any response, in particular not a 400 `DuplicateKey` conflict
response.  (On race-free runs the raced model agrees with the endpoint.) -/
theorem create_patient_race_unhandled_integrity_error :
    create_patientRaced emptyStore storeWinner reqBase =
      .error (.integrityError
        "UNIQUE constraint failed: patients_provider.npi") ∧
    create_patientRaced emptyStore emptyStore reqBase =
      .ok (create_patient emptyStore reqBase) :=
  ⟨rfl, rfl⟩

end Lamar
